import Mathlib

/-!
Verification of the keyring credential-storage contract (iospw.h).

The repository source under verification is the C header
`src/keyring-tester/iospw/iospw.h`, which declares the three operations
`KeyringSetPassword`, `KeyringCopyPassword` and `KeyringDeletePassword`
and documents their contract.  The implementation file of these
operations is not part of the source tree, so the operations below are
modelled from the specification (and the header's own doc comments),
faithful to their words: the store is a map from (service, account)
keys to byte sequences held by the backend, statuses form the closed
taxonomy Success / NotFound / DecodeFailure / UnexpectedFailure, and
backend faults are injected explicitly so that error-path claims can be
stated.
-/

namespace Keyring

/-- A credential key: the immutable pair (service, account). -/
structure CredentialKey where
  service : String
  account : String
deriving DecidableEq

/-- A secret value: a raw byte sequence (each entry a byte value). -/
abbrev Bytes := List Nat

/-- The backend-held state: each key maps to its slot's stored bytes,
or to `none` when no slot exists for the key. -/
abbrev Store := CredentialKey → Option Bytes

/-- The closed status taxonomy surfaced to callers. -/
inductive Status where
  | success
  | notFound
  | decodeFailure
  | unexpectedFailure
deriving DecidableEq

/-- A UTF-8 continuation byte: 0x80 through 0xBF. -/
def isCont (b : Nat) : Bool := 128 ≤ b && b ≤ 191

/-- Validity of a byte sequence as UTF-8 (RFC 3629: well-formed
sequences of one to four bytes, excluding overlong forms, surrogates
and code points above U+10FFFF). -/
def utf8Valid : Bytes → Bool
  | [] => true
  | b :: rest =>
    if b ≤ 127 then utf8Valid rest
    else if 194 ≤ b && b ≤ 223 then
      match rest with
      | c1 :: r => isCont c1 && utf8Valid r
      | [] => false
    else if b == 224 then
      match rest with
      | c1 :: c2 :: r => (160 ≤ c1 && c1 ≤ 191) && isCont c2 && utf8Valid r
      | _ => false
    else if (225 ≤ b && b ≤ 236) || b == 238 || b == 239 then
      match rest with
      | c1 :: c2 :: r => isCont c1 && isCont c2 && utf8Valid r
      | _ => false
    else if b == 237 then
      match rest with
      | c1 :: c2 :: r => (128 ≤ c1 && c1 ≤ 159) && isCont c2 && utf8Valid r
      | _ => false
    else if b == 240 then
      match rest with
      | c1 :: c2 :: c3 :: r =>
          (144 ≤ c1 && c1 ≤ 191) && isCont c2 && isCont c3 && utf8Valid r
      | _ => false
    else if 241 ≤ b && b ≤ 243 then
      match rest with
      | c1 :: c2 :: c3 :: r => isCont c1 && isCont c2 && isCont c3 && utf8Valid r
      | _ => false
    else if b == 244 then
      match rest with
      | c1 :: c2 :: c3 :: r =>
          (128 ≤ c1 && c1 ≤ 143) && isCont c2 && isCont c3 && utf8Valid r
      | _ => false
    else false

/-- Result of the backend's `lookup(key)` collaborator operation:
`found(bytes)`, `absent`, or a backend error with its raw code. -/
inductive LookupResult where
  | found (bytes : Bytes)
  | absent
  | backendError (code : Int)

/-- Result of the backend's `upsert(key, bytes)` collaborator
operation: `ok` or a backend error with its raw code. -/
inductive UpsertResult where
  | ok
  | backendError (code : Int)

/-- Result of the backend's `erase(key)` collaborator operation:
`ok`, `absent`, or a backend error with its raw code. -/
inductive EraseResult where
  | ok
  | absent
  | backendError (code : Int)

/-- The backend's lookup against the in-memory store model: `found`
with the slot's bytes when the slot exists, `absent` otherwise. -/
def lookup (st : Store) (k : CredentialKey) : LookupResult :=
  match st k with
  | some b => .found b
  | none => .absent

/-- The backend's upsert effect on the store: the key's slot now holds
exactly the new bytes; all other slots are untouched. -/
def update (st : Store) (k : CredentialKey) (v : Bytes) : Store :=
  fun k' => if k' = k then some v else st k'

/-- The backend's erase effect on the store: the key's slot is gone;
all other slots are untouched. -/
def remove (st : Store) (k : CredentialKey) : Store :=
  fun k' => if k' = k then none else st k'

/-- Modelled from the spec: the status/value mapping of the read
operation (the implementation of `KeyringCopyPassword` is not in the
source tree, only its declaration in iospw.h).  Absent slot gives
NotFound with no value, regardless of whether output was requested; a
backend error gives UnexpectedFailure with no value; a found slot with
no output requested gives Success with no value; a found slot with
output requested gives Success with the bytes when they are valid
UTF-8 and DecodeFailure still carrying the raw bytes when they are
not. -/
def getOutcome (r : LookupResult) (wantsOutput : Bool) : Status × Option Bytes :=
  match r with
  | .absent => (.notFound, none)
  | .backendError _ => (.unexpectedFailure, none)
  | .found b =>
    if wantsOutput then
      if utf8Valid b then (.success, some b) else (.decodeFailure, some b)
    else (.success, none)

/-- Modelled from the spec: the status mapping of the write operation
(the implementation of `KeyringSetPassword` is not in the source tree).
An `ok` upsert is Success; any backend error is UnexpectedFailure. -/
def setOutcome : UpsertResult → Status
  | .ok => .success
  | .backendError _ => .unexpectedFailure

/-- Modelled from the spec: the status mapping of the delete operation
(the implementation of `KeyringDeletePassword` is not in the source
tree).  An `ok` erase is Success, `absent` is NotFound, and any backend
error is UnexpectedFailure. -/
def deleteOutcome : EraseResult → Status
  | .ok => .success
  | .absent => .notFound
  | .backendError _ => .unexpectedFailure

/-- Modelled from the spec: `KeyringCopyPassword` (its implementation
is not in the source tree; only its declaration and doc comment are).
The operation performs a single backend lookup and maps the result
through `getOutcome`; it never writes to the store, which is returned
unchanged.  `fault` injects a backend error with the given code in
place of a normal lookup (`none` means the backend operates
normally). -/
def KeyringCopyPassword (st : Store) (k : CredentialKey) (wantsOutput : Bool)
    (fault : Option Int) : Status × Option Bytes × Store :=
  let r := match fault with
    | some e => LookupResult.backendError e
    | none => lookup st k
  let o := getOutcome r wantsOutput
  (o.1, o.2, st)

/-- Modelled from the spec: `KeyringSetPassword` (its implementation is
not in the source tree).  A normal backend upsert (`fault = none`)
creates or replaces the key's slot with the secret and returns Success;
an injected backend error returns UnexpectedFailure and, the overwrite
being all-or-nothing, leaves the store intact. -/
def KeyringSetPassword (st : Store) (k : CredentialKey) (v : Bytes)
    (fault : Option Int) : Status × Store :=
  match fault with
  | some e => (setOutcome (.backendError e), st)
  | none => (setOutcome .ok, update st k v)

/-- Modelled from the spec: `KeyringDeletePassword` (its implementation
is not in the source tree).  With a normal backend (`fault = none`),
deleting an existing slot removes it and returns Success, and deleting
an absent slot returns NotFound; an injected backend error returns
UnexpectedFailure and leaves the store intact. -/
def KeyringDeletePassword (st : Store) (k : CredentialKey)
    (fault : Option Int) : Status × Store :=
  match fault with
  | some e => (deleteOutcome (.backendError e), st)
  | none =>
    match st k with
    | some _ => (deleteOutcome .ok, remove st k)
    | none => (deleteOutcome .absent, st)

/-- The caller's allocation domain: a counter of the next fresh buffer
index and the contents of each allocated buffer (`none` for indices
never allocated or already released). -/
structure Heap where
  next : Nat
  mem : Nat → Option Bytes

/-- A well-formed heap: indices at or beyond the allocation counter are
unallocated. -/
def Heap.wf (h : Heap) : Prop := ∀ j, h.next ≤ j → h.mem j = none

/-- Allocate a fresh buffer holding the given bytes; returns the fresh
index and the grown heap.  No existing buffer is touched. -/
def Heap.alloc (h : Heap) (b : Bytes) : Nat × Heap :=
  (h.next, ⟨h.next + 1, fun i => if i = h.next then some b else h.mem i⟩)

/-- Modelled from the spec and the Safety doc comment of
`KeyringCopyPassword` in iospw.h (the implementation is not in the
source tree): the ownership-level view of the read operation.  When the
slot exists and output is requested, a new buffer is allocated in the
caller's domain, a copy of the stored bytes is put into it, and its
index is returned; the current value of any other buffer, including a
caller-supplied prior value in the destination, is never freed or
altered.  When no output is requested or no slot exists, the heap is
untouched. -/
def KeyringCopyPasswordAlloc (st : Store) (h : Heap) (k : CredentialKey)
    (wantsOutput : Bool) : Status × Option Nat × Heap :=
  match st k with
  | none => (.notFound, none, h)
  | some b =>
    if wantsOutput then
      let a := h.alloc b
      ((if utf8Valid b then .success else .decodeFailure), some a.1, a.2)
    else (.success, none, h)

/-- C1: for every key k and every byte sequence t that is valid UTF-8,
`KeyringSetPassword(k, t)` followed by `KeyringCopyPassword(k)` with
output requested returns status Success together with a value equal to
t. -/
theorem set_get_roundtrip (st : Store) (k : CredentialKey) (t : Bytes)
    (hv : utf8Valid t = true) :
    (KeyringCopyPassword (KeyringSetPassword st k t none).2 k true none).1
        = Status.success ∧
    (KeyringCopyPassword (KeyringSetPassword st k t none).2 k true none).2.1
        = some t := by
  constructor <;>
    simp [KeyringCopyPassword, KeyringSetPassword, getOutcome, setOutcome,
      lookup, update, hv]

/-- Witness for C1 at the concrete key ("svc", "acct") and the UTF-8
secret [104, 105] ("hi"), starting from the empty store. -/
theorem set_get_roundtrip_witness :
    utf8Valid [104, 105] = true ∧
    ((KeyringCopyPassword
        (KeyringSetPassword (fun _ => none) ⟨"svc", "acct"⟩ [104, 105] none).2
        ⟨"svc", "acct"⟩ true none).1 = Status.success ∧
     (KeyringCopyPassword
        (KeyringSetPassword (fun _ => none) ⟨"svc", "acct"⟩ [104, 105] none).2
        ⟨"svc", "acct"⟩ true none).2.1 = some [104, 105]) :=
  ⟨by decide,
   set_get_roundtrip (fun _ => none) ⟨"svc", "acct"⟩ [104, 105] (by decide)⟩

/-- C2: for every key whose slot holds stored bytes that are not valid
UTF-8, `KeyringCopyPassword` with output requested returns status
DecodeFailure and still produces a value carrying exactly the stored
raw bytes. -/
theorem get_non_utf8_preserved (st : Store) (k : CredentialKey) (b : Bytes)
    (hb : st k = some b) (hv : utf8Valid b = false) :
    (KeyringCopyPassword st k true none).1 = Status.decodeFailure ∧
    (KeyringCopyPassword st k true none).2.1 = some b := by
  constructor <;> simp [KeyringCopyPassword, getOutcome, lookup, hb, hv]

/-- Witness for C2 at a store holding the non-UTF-8 bytes [255] for the
key ("svc", "acct"). -/
theorem get_non_utf8_preserved_witness :
    ((fun k' => if k' = CredentialKey.mk "svc" "acct" then some [255] else none)
        (CredentialKey.mk "svc" "acct") = some ([255] : Bytes)) ∧
    utf8Valid [255] = false ∧
    ((KeyringCopyPassword
        (fun k' => if k' = CredentialKey.mk "svc" "acct" then some [255] else none)
        ⟨"svc", "acct"⟩ true none).1 = Status.decodeFailure ∧
     (KeyringCopyPassword
        (fun k' => if k' = CredentialKey.mk "svc" "acct" then some [255] else none)
        ⟨"svc", "acct"⟩ true none).2.1 = some [255]) :=
  ⟨by decide, by decide,
   get_non_utf8_preserved _ ⟨"svc", "acct"⟩ [255] (by decide) (by decide)⟩

/-- C3: for every key with no slot, `KeyringCopyPassword` returns
NotFound with no value produced, for both values of wantsOutput, and
`KeyringDeletePassword` returns NotFound. -/
theorem not_found_symmetry (st : Store) (k : CredentialKey)
    (h : st k = none) :
    (KeyringCopyPassword st k true none).1 = Status.notFound ∧
    (KeyringCopyPassword st k true none).2.1 = none ∧
    (KeyringCopyPassword st k false none).1 = Status.notFound ∧
    (KeyringCopyPassword st k false none).2.1 = none ∧
    (KeyringDeletePassword st k none).1 = Status.notFound := by
  refine ⟨?_, ?_, ?_, ?_, ?_⟩ <;>
    simp [KeyringCopyPassword, KeyringDeletePassword, getOutcome,
      deleteOutcome, lookup, h]

/-- Witness for C3 at the empty store and the key ("svc", "acct"). -/
theorem not_found_symmetry_witness :
    ((fun _ => none : Store) ⟨"svc", "acct"⟩ = none) ∧
    ((KeyringCopyPassword (fun _ => none) ⟨"svc", "acct"⟩ true none).1
        = Status.notFound ∧
     (KeyringCopyPassword (fun _ => none) ⟨"svc", "acct"⟩ true none).2.1 = none ∧
     (KeyringCopyPassword (fun _ => none) ⟨"svc", "acct"⟩ false none).1
        = Status.notFound ∧
     (KeyringCopyPassword (fun _ => none) ⟨"svc", "acct"⟩ false none).2.1 = none ∧
     (KeyringDeletePassword (fun _ => none) ⟨"svc", "acct"⟩ none).1
        = Status.notFound) :=
  ⟨rfl, not_found_symmetry (fun _ => none) ⟨"svc", "acct"⟩ rfl⟩

/-- C4: for every key k and secrets s1, s2, after setting s1 and then
s2 for k, a read with output requested yields exactly s2 (whether or
not s2 is valid UTF-8, the produced value is the stored s2, never s1
and never a mixture). -/
theorem set_set_overwrites (st : Store) (k : CredentialKey) (s1 s2 : Bytes) :
    (KeyringCopyPassword
        (KeyringSetPassword (KeyringSetPassword st k s1 none).2 k s2 none).2
        k true none).2.1 = some s2 := by
  cases hv : utf8Valid s2 <;>
    simp [KeyringCopyPassword, KeyringSetPassword, getOutcome, setOutcome,
      lookup, update, hv]

/-- C5: after `KeyringSetPassword(k, t)` succeeds,
`KeyringDeletePassword(k)` returns Success, and a subsequent
`KeyringCopyPassword(k)` returns NotFound with no value. -/
theorem set_delete_get (st : Store) (k : CredentialKey) (t : Bytes) :
    (KeyringSetPassword st k t none).1 = Status.success ∧
    (KeyringDeletePassword (KeyringSetPassword st k t none).2 k none).1
        = Status.success ∧
    (KeyringCopyPassword
        (KeyringDeletePassword (KeyringSetPassword st k t none).2 k none).2
        k true none).1 = Status.notFound ∧
    (KeyringCopyPassword
        (KeyringDeletePassword (KeyringSetPassword st k t none).2 k none).2
        k true none).2.1 = none := by
  refine ⟨rfl, ?_, ?_, ?_⟩ <;>
    simp [KeyringCopyPassword, KeyringSetPassword, KeyringDeletePassword,
      getOutcome, setOutcome, deleteOutcome, lookup, update, remove]

/-- C6: every status surfaced by the three operations — over every
store, key, secret, wantsOutput flag, injected fault, and every raw
backend result — is a member of the closed four-element set {Success,
NotFound, DecodeFailure, UnexpectedFailure}; and every backend error
other than absence/not-found, whatever its code, is mapped to the
single status UnexpectedFailure by each operation. -/
theorem status_closed_taxonomy (st : Store) (k : CredentialKey) (v : Bytes)
    (w : Bool) (f : Option Int) (r : LookupResult) (u : UpsertResult)
    (d : EraseResult) (e : Int) :
    ((KeyringSetPassword st k v f).1 = Status.success ∨
     (KeyringSetPassword st k v f).1 = Status.notFound ∨
     (KeyringSetPassword st k v f).1 = Status.decodeFailure ∨
     (KeyringSetPassword st k v f).1 = Status.unexpectedFailure) ∧
    ((KeyringCopyPassword st k w f).1 = Status.success ∨
     (KeyringCopyPassword st k w f).1 = Status.notFound ∨
     (KeyringCopyPassword st k w f).1 = Status.decodeFailure ∨
     (KeyringCopyPassword st k w f).1 = Status.unexpectedFailure) ∧
    ((KeyringDeletePassword st k f).1 = Status.success ∨
     (KeyringDeletePassword st k f).1 = Status.notFound ∨
     (KeyringDeletePassword st k f).1 = Status.decodeFailure ∨
     (KeyringDeletePassword st k f).1 = Status.unexpectedFailure) ∧
    ((getOutcome r w).1 = Status.success ∨
     (getOutcome r w).1 = Status.notFound ∨
     (getOutcome r w).1 = Status.decodeFailure ∨
     (getOutcome r w).1 = Status.unexpectedFailure) ∧
    (setOutcome u = Status.success ∨ setOutcome u = Status.notFound ∨
     setOutcome u = Status.decodeFailure ∨
     setOutcome u = Status.unexpectedFailure) ∧
    (deleteOutcome d = Status.success ∨ deleteOutcome d = Status.notFound ∨
     deleteOutcome d = Status.decodeFailure ∨
     deleteOutcome d = Status.unexpectedFailure) ∧
    (getOutcome (LookupResult.backendError e) w).1 = Status.unexpectedFailure ∧
    setOutcome (UpsertResult.backendError e) = Status.unexpectedFailure ∧
    deleteOutcome (EraseResult.backendError e) = Status.unexpectedFailure ∧
    (KeyringSetPassword st k v (some e)).1 = Status.unexpectedFailure ∧
    (KeyringCopyPassword st k w (some e)).1 = Status.unexpectedFailure ∧
    (KeyringDeletePassword st k (some e)).1 = Status.unexpectedFailure := by
  have hall : ∀ s : Status, s = Status.success ∨ s = Status.notFound ∨
      s = Status.decodeFailure ∨ s = Status.unexpectedFailure := by
    intro s; cases s <;> simp
  exact ⟨hall _, hall _, hall _, hall _, hall _, hall _, rfl, rfl, rfl,
    rfl, rfl, rfl⟩

/-- C7: on a key whose slot exists, `KeyringCopyPassword` with
wantsOutput = false returns Success, produces no value, leaves the
store unchanged, and a subsequent full read on the post-probe store
still produces exactly the stored bytes. -/
theorem probe_no_side_effect (st : Store) (k : CredentialKey) (b : Bytes)
    (hb : st k = some b) :
    (KeyringCopyPassword st k false none).1 = Status.success ∧
    (KeyringCopyPassword st k false none).2.1 = none ∧
    (KeyringCopyPassword st k false none).2.2 = st ∧
    (KeyringCopyPassword (KeyringCopyPassword st k false none).2.2
        k true none).2.1 = some b := by
  refine ⟨?_, ?_, rfl, ?_⟩
  · simp [KeyringCopyPassword, getOutcome, lookup, hb]
  · simp [KeyringCopyPassword, getOutcome, lookup, hb]
  · cases hv : utf8Valid b <;>
      simp [KeyringCopyPassword, getOutcome, lookup, hb, hv]

/-- Witness for C7 at a store holding [104] for the key
("svc", "acct"). -/
theorem probe_no_side_effect_witness :
    ((fun k' => if k' = CredentialKey.mk "svc" "acct" then some [104] else none)
        (CredentialKey.mk "svc" "acct") = some ([104] : Bytes)) ∧
    ((KeyringCopyPassword
        (fun k' => if k' = CredentialKey.mk "svc" "acct" then some [104] else none)
        ⟨"svc", "acct"⟩ false none).1 = Status.success ∧
     (KeyringCopyPassword
        (fun k' => if k' = CredentialKey.mk "svc" "acct" then some [104] else none)
        ⟨"svc", "acct"⟩ false none).2.1 = none ∧
     (KeyringCopyPassword
        (fun k' => if k' = CredentialKey.mk "svc" "acct" then some [104] else none)
        ⟨"svc", "acct"⟩ false none).2.2
        = (fun k' => if k' = CredentialKey.mk "svc" "acct" then some [104] else none) ∧
     (KeyringCopyPassword
        (KeyringCopyPassword
          (fun k' => if k' = CredentialKey.mk "svc" "acct" then some [104] else none)
          ⟨"svc", "acct"⟩ false none).2.2
        ⟨"svc", "acct"⟩ true none).2.1 = some [104]) :=
  ⟨by decide, probe_no_side_effect _ ⟨"svc", "acct"⟩ [104] (by decide)⟩

/-- C8: if a `KeyringSetPassword` call returns a non-Success status,
the store — in particular the value previously stored in the key's
slot — is left intact, so a later read observes exactly what it would
have observed before the failed call. -/
theorem set_failure_atomic (st : Store) (k : CredentialKey) (v : Bytes)
    (f : Option Int)
    (h : (KeyringSetPassword st k v f).1 ≠ Status.success) :
    (KeyringSetPassword st k v f).2 = st ∧
    (KeyringCopyPassword (KeyringSetPassword st k v f).2 k true none).2.1
        = (KeyringCopyPassword st k true none).2.1 := by
  cases f with
  | none => exact absurd rfl h
  | some e => exact ⟨rfl, rfl⟩

/-- Witness for C8 at the empty store, key ("svc", "acct"), secret
[1], and an injected backend fault with code 1. -/
theorem set_failure_atomic_witness :
    ((KeyringSetPassword (fun _ => none) ⟨"svc", "acct"⟩ [1] (some 1)).1
        ≠ Status.success) ∧
    ((KeyringSetPassword (fun _ => none) ⟨"svc", "acct"⟩ [1] (some 1)).2
        = (fun _ => none) ∧
     (KeyringCopyPassword
        (KeyringSetPassword (fun _ => none) ⟨"svc", "acct"⟩ [1] (some 1)).2
        ⟨"svc", "acct"⟩ true none).2.1
        = (KeyringCopyPassword (fun _ => none) ⟨"svc", "acct"⟩ true none).2.1) :=
  ⟨by decide,
   set_failure_atomic (fun _ => none) ⟨"svc", "acct"⟩ [1] (some 1) (by decide)⟩

/-- C9: on a well-formed heap, a read with output requested on an
existing slot returns the index of a freshly allocated buffer (one not
allocated before the call) holding a copy of the stored bytes; every
other buffer — including any caller-held prior value — is left exactly
as it was, never freed; and however the caller subsequently mutates or
releases buffers (any heap h2 whatsoever), a later read still returns
a buffer holding exactly the stored bytes, with the same status. -/
theorem copy_ownership_independence (st : Store) (h : Heap)
    (k : CredentialKey) (b : Bytes) (hwf : Heap.wf h) (hb : st k = some b) :
    (KeyringCopyPasswordAlloc st h k true).2.1 = some h.next ∧
    h.mem h.next = none ∧
    (∀ j, j ≠ h.next →
      (KeyringCopyPasswordAlloc st h k true).2.2.mem j = h.mem j) ∧
    (KeyringCopyPasswordAlloc st h k true).2.2.mem h.next = some b ∧
    (∀ h2 : Heap,
      (KeyringCopyPasswordAlloc st h2 k true).2.1 = some h2.next ∧
      (KeyringCopyPasswordAlloc st h2 k true).2.2.mem h2.next = some b ∧
      (KeyringCopyPasswordAlloc st h2 k true).1
        = (KeyringCopyPasswordAlloc st h k true).1) := by
  refine ⟨?_, hwf h.next le_rfl, ?_, ?_, ?_⟩
  · simp [KeyringCopyPasswordAlloc, Heap.alloc, hb]
  · intro j hj
    simp [KeyringCopyPasswordAlloc, Heap.alloc, hb, hj]
  · simp [KeyringCopyPasswordAlloc, Heap.alloc, hb]
  · intro h2
    refine ⟨?_, ?_, ?_⟩ <;> simp [KeyringCopyPasswordAlloc, Heap.alloc, hb]

/-- Witness for C9 at the empty heap and a store holding [200] for
the key ("svc", "acct"). -/
theorem copy_ownership_independence_witness :
    Heap.wf ⟨0, fun _ => none⟩ ∧
    ((fun k' => if k' = CredentialKey.mk "svc" "acct" then some [200] else none)
        (CredentialKey.mk "svc" "acct") = some ([200] : Bytes)) ∧
    ((KeyringCopyPasswordAlloc
        (fun k' => if k' = CredentialKey.mk "svc" "acct" then some [200] else none)
        ⟨0, fun _ => none⟩ ⟨"svc", "acct"⟩ true).2.1
        = some (Heap.next ⟨0, fun _ => none⟩) ∧
     Heap.mem ⟨0, fun _ => none⟩ (Heap.next ⟨0, fun _ => none⟩) = none ∧
     (∀ j, j ≠ Heap.next ⟨0, fun _ => none⟩ →
       (KeyringCopyPasswordAlloc
         (fun k' => if k' = CredentialKey.mk "svc" "acct" then some [200] else none)
         ⟨0, fun _ => none⟩ ⟨"svc", "acct"⟩ true).2.2.mem j
         = Heap.mem ⟨0, fun _ => none⟩ j) ∧
     (KeyringCopyPasswordAlloc
        (fun k' => if k' = CredentialKey.mk "svc" "acct" then some [200] else none)
        ⟨0, fun _ => none⟩ ⟨"svc", "acct"⟩ true).2.2.mem
          (Heap.next ⟨0, fun _ => none⟩) = some [200] ∧
     (∀ h2 : Heap,
       (KeyringCopyPasswordAlloc
         (fun k' => if k' = CredentialKey.mk "svc" "acct" then some [200] else none)
         h2 ⟨"svc", "acct"⟩ true).2.1 = some h2.next ∧
       (KeyringCopyPasswordAlloc
         (fun k' => if k' = CredentialKey.mk "svc" "acct" then some [200] else none)
         h2 ⟨"svc", "acct"⟩ true).2.2.mem h2.next = some [200] ∧
       (KeyringCopyPasswordAlloc
         (fun k' => if k' = CredentialKey.mk "svc" "acct" then some [200] else none)
         h2 ⟨"svc", "acct"⟩ true).1
         = (KeyringCopyPasswordAlloc
             (fun k' => if k' = CredentialKey.mk "svc" "acct" then some [200] else none)
             ⟨0, fun _ => none⟩ ⟨"svc", "acct"⟩ true).1)) :=
  ⟨fun j _ => rfl, by decide,
   copy_ownership_independence _ ⟨0, fun _ => none⟩ ⟨"svc", "acct"⟩ [200]
     (fun j _ => rfl) (by decide)⟩

/-- C10: `KeyringCopyPassword` is read-only on the store in all cases:
for every key, both values of wantsOutput, and every injected fault
(hence every resulting status), the store it returns — the slot of
every key included — is exactly the input store. -/
theorem get_read_only (st : Store) (k : CredentialKey) (w : Bool)
    (f : Option Int) :
    (KeyringCopyPassword st k w f).2.2 = st := rfl

end Keyring
